import Mathlib

/-!
Shallow embedding of the `xuguruogu/nebula-importer` configuration package
(`src/pkg/config/config.go`) together with theorems settling the frozen
claims about its schema resolution and record-to-statement compilation.

Go semantics conventions used throughout:
* a Go pointer field `*T` is embedded as `Option T`;
* a function that can return a Go `error` yields `Res.err`;
* `logger.Fatalf` (which terminates the whole process) yields `Res.fatal`;
* a Go runtime panic (nil-pointer dereference, slice index out of range)
  yields `Res.crash`.
Functions from `pkg/base` (not present under `src/`) are modelled from the
spec and marked as such in their doc comments.
-/

namespace NebulaImporter

/-- Outcome of running a piece of Go code: normal value, returned `error`,
`logger.Fatalf` process abort, or runtime panic. -/
inductive Res (α : Type) where
  | ok : α → Res α
  | err : String → Res α
  | fatal : String → Res α
  | crash : Res α
deriving DecidableEq

/-- Sequencing of Go statements: any abnormal outcome propagates. -/
def Res.bind {α β : Type} : Res α → (α → Res β) → Res β
  | .ok a, f => f a
  | .err m, _ => .err m
  | .fatal m, _ => .fatal m
  | .crash, _ => .crash

def Res.isOk {α : Type} : Res α → Bool
  | .ok _ => true
  | _ => false

def Res.isErr {α : Type} : Res α → Bool
  | .err _ => true
  | _ => false

def Res.isFatal {α : Type} : Res α → Bool
  | .fatal _ => true
  | _ => false

/-- Dereference of a Go pointer: `nil` panics. -/
def goDeref {α : Type} : Option α → Res α
  | some a => .ok a
  | none => .crash

/-- Go slice indexing `record[i]` for an `int` index: `none` means the
access panics (negative or past the end). -/
def recNth (r : List String) (i : Int) : Option String :=
  if i < 0 then none else r[i.toNat]?

/-- Split a character list at every occurrence of `sep`; mirrors Go
`strings.Split` with a one-character separator (always non-empty result). -/
def splitChar (sep : Char) : List Char → List (List Char)
  | [] => [[]]
  | c :: cs =>
    let r := splitChar sep cs
    if c = sep then [] :: r
    else
      match r with
      | [] => [[c]]
      | h :: t => (c :: h) :: t

/-- Go `strings.Split(s, sep)` for a one-character separator. -/
def goSplit (s : String) (sep : Char) : List String :=
  (splitChar sep s.toList).map String.mk

/-- ASCII lower-casing of one character (the configuration keywords the code
compares against are all ASCII, so Unicode folding is irrelevant here). -/
def charLower (c : Char) : Char :=
  if 'A' ≤ c ∧ c ≤ 'Z' then Char.ofNat (c.toNat + 32) else c

/-- Go `strings.ToLower` restricted to ASCII. -/
def goToLower (s : String) : String :=
  String.mk (s.toList.map charLower)

/-- Go `strings.Join(parts, sep)`. -/
def joinSep (sep : String) : List String → String
  | [] => ""
  | [x] => x
  | x :: xs => x ++ sep ++ joinSep sep xs

/-- Quoting of one character inside a Go `%q` verb (escapes the quote and
the backslash; the cells appearing in the claims need nothing more). -/
def goQuoteChar (c : Char) : String :=
  if c = '"' then "\\\"" else if c = '\\' then "\\\\" else String.singleton c

/-- Go `fmt.Sprintf("%q", s)`. -/
def goQuote (s : String) : String :=
  "\"" ++ String.join (s.toList.map goQuoteChar) ++ "\""

/-- Go `fmt.Sprintf("%v", record)` for a `[]string`: `[a b c]`. -/
def goFmtStrList (r : List String) : String :=
  "[" ++ joinSep " " r ++ "]"

/-- Decimal digits to a natural number. -/
def digitsToNat (l : List Char) : Nat :=
  l.foldl (fun n c => n * 10 + (c.toNat - 48)) 0

/-- Modelled from the spec: `base.TryConvInt64` is not under `src/`.  The
spec says the cell is parsed as a number and its integer part rendered,
truncated toward zero, with the raw text passed through unchanged when the
cell is unparsable.  The model parses plain decimal literals with an
optional sign and fractional part. -/
def tryConvInt64 (s : String) : String :=
  let chars := s.toList
  let signRest : Bool × List Char :=
    match chars with
    | '-' :: cs => (true, cs)
    | '+' :: cs => (false, cs)
    | cs => (false, cs)
  let intPart := signRest.2.takeWhile Char.isDigit
  let rest2 := signRest.2.dropWhile Char.isDigit
  let okB : Bool :=
    match rest2 with
    | [] => !intPart.isEmpty
    | '.' :: frac => (!intPart.isEmpty || !frac.isEmpty) && frac.all Char.isDigit
    | _ => false
  if okB then
    let n := digitsToNat intPart
    if signRest.1 && n ≠ 0 then "-" ++ toString n else toString n
  else s

/-- Modelled from the spec: `base.IsValidType` is not under `src/`.  The
spec's data model admits the property types
bool, int, float, double, string, timestamp and date-timestamp:FORMAT. -/
def isValidType (t : String) : Bool :=
  t = "bool" || t = "int" || t = "float" || t = "double" || t = "string" ||
  t = "timestamp" || ("date-timestamp:".toList.isPrefixOf t.toList)

/-- Modelled from the spec: `base.TryConvDateTimestamp` is not under
`src/`.  The spec says only that the cell is parsed using the format and
rendered as a timestamp value; the claims proved below depend on which
converter is invoked with which arguments, never on its output, so the
rendering itself is modelled as an injective tagging of both arguments. -/
def tryConvDateTimestamp (cell fmtStr : String) : String :=
  "timestamp(" ++ fmtStr ++ ", " ++ cell ++ ")"

/-- Embeds `var version string = "v1rc2"` (config.go line 95). -/
def version : String := "v1rc2"

/-- Go struct `Prop` (the name `Prop` itself is taken by Lean's sort). -/
structure GoProp where
  name : Option String
  type : Option String
  index : Option Int
deriving DecidableEq

structure VID where
  index : Option Int
  function : Option String
deriving DecidableEq

structure Rank where
  index : Option Int
deriving DecidableEq

structure Edge where
  name : Option String
  withRanking : Option Bool
  props : List (Option GoProp)
  srcVID : Option VID
  dstVID : Option VID
  rank : Option Rank
deriving DecidableEq

structure Tag where
  name : Option String
  props : List (Option GoProp)
deriving DecidableEq

structure Vertex where
  vid : Option VID
  tags : List (Option Tag)
deriving DecidableEq

structure Schema where
  type : Option String
  edge : Option Edge
  vertex : Option Vertex
deriving DecidableEq

structure CSVConfig where
  withHeader : Option Bool
  withLabel : Option Bool
  delimiter : Option String
deriving DecidableEq

structure File where
  paths : List String
  path : Option String
  failDataPath : Option String
  batchSize : Option Int
  limit : Option Int
  inOrder : Option Bool
  type : Option String
  csv : Option CSVConfig
  schema : Option Schema
deriving DecidableEq

structure NebulaClientConnection where
  user : Option String
  password : Option String
  address : Option String
deriving DecidableEq

structure NebulaClientSettings where
  retry : Option Int
  concurrency : Option Int
  channelBufferSize : Option Int
  space : Option String
  connection : Option NebulaClientConnection
deriving DecidableEq

structure YAMLConfig where
  version : Option String
  description : Option String
  nebulaClientSettings : Option NebulaClientSettings
  logPath : Option String
  files : List (Option File)
deriving DecidableEq

/-- Embeds `Prop.validateAndReset` (config.go lines 598-611).  The type is
lower-cased in place first (a nil type panics), an invalid type returns an
error, a missing index is set to `val`, and a negative explicit index runs
`logger.Fatalf` (whose arguments dereference `p.Name`). -/
def GoProp.validateAndReset (p : GoProp) (pfx : String) (val : Int) : Res GoProp :=
  match p.type with
  | none => .crash
  | some ty0 =>
    let ty := goToLower ty0
    if isValidType ty then
      match p.index with
      | none => .ok ⟨p.name, some ty, some val⟩
      | some i =>
        if i < 0 then
          match p.name with
          | none => .crash
          | some nm =>
            .fatal ("Invalid prop index: " ++ toString i ++ ", name: " ++ nm ++
              ", type: " ++ ty)
        else .ok ⟨p.name, some ty, some i⟩
    else .err ("Error property type of " ++ pfx ++ ".type: " ++ ty)

/-- Embeds `VID.checkFunction` (config.go lines 327-336). -/
def VID.checkFunction (v : VID) (pfx : String) : Res Unit :=
  match v.function with
  | none => .ok ()
  | some f =>
    let lf := goToLower f
    if lf = "" ∨ lf = "hash" ∨ lf = "uuid" then .ok ()
    else
      .err ("Invalid " ++ pfx ++ ".function: " ++ f ++
        ", only following values are supported: \"\", hash, uuid")

/-- Embeds `VID.validateAndReset` (config.go lines 338-349). -/
def VID.validateAndReset (v : VID) (pfx : String) (defaultVal : Int) : Res VID :=
  let idx := v.index.getD defaultVal
  if idx < 0 then .err ("Invalid " ++ pfx ++ ".index: " ++ toString idx)
  else
    Res.bind (VID.checkFunction ⟨some idx, v.function⟩ pfx) fun _ =>
      .ok ⟨some idx, v.function⟩

/-- Embeds `Rank.validateAndReset` (config.go lines 351-359). -/
def Rank.validateAndReset (r : Rank) (pfx : String) (defaultVal : Int) : Res Rank :=
  let idx := r.index.getD defaultVal
  if idx < 0 then .err ("Invalid " ++ pfx ++ ".index: " ++ toString idx)
  else .ok ⟨some idx⟩

/-- The prop loops of `Edge.validateAndReset` (config.go lines 474-482) and
`Tag.validateAndReset` (config.go lines 630-638): prop `i` is validated
with default column `i + start`; a nil entry is only logged
(`logger.Errorf`) and kept nil.  `seg` is the per-entry prefix segment
(`".prop["` for edges, `".props["` for tags). -/
def propsLoop (seg pfx : String) (start : Int) :
    List (Option GoProp) → Int → Res (List (Option GoProp))
  | [], _ => .ok []
  | none :: rest, i =>
    Res.bind (propsLoop seg pfx start rest (i + 1)) fun l => .ok (none :: l)
  | some p :: rest, i =>
    Res.bind (p.validateAndReset (pfx ++ seg ++ toString i ++ "]") (i + start)) fun p2 =>
    Res.bind (propsLoop seg pfx start rest (i + 1)) fun l => .ok (some p2 :: l)

/-- Embeds `Tag.validateAndReset` (config.go lines 625-640). -/
def Tag.validateAndReset (t : Tag) (pfx : String) (start : Int) : Res Tag :=
  match t.name with
  | none => .err ("Please configure the vertex tag name in: " ++ pfx ++ ".name")
  | some _ =>
    Res.bind (propsLoop ".props[" pfx start t.props 0) fun ps =>
      .ok ⟨t.name, ps⟩

/-- Embeds `Edge.validateAndReset` (config.go lines 441-484): missing name is an
error; missing SrcVID/DstVID are created with defaults 0/1; a present Rank
is validated with default 2, an absent one is created at 2 exactly when
`withRanking` is true; props start at the next free column. -/
def Edge.validateAndReset (e : Edge) (pfx : String) : Res Edge :=
  match e.name with
  | none => .err ("Please configure edge name in: " ++ pfx ++ ".name")
  | some _ =>
    let srcRes : Res VID :=
      match e.srcVID with
      | some v => v.validateAndReset (pfx ++ ".srcVID") 0
      | none => .ok ⟨some 0, none⟩
    Res.bind srcRes fun src =>
    let dstRes : Res VID :=
      match e.dstVID with
      | some v => v.validateAndReset (pfx ++ ".dstVID") 1
      | none => .ok ⟨some 1, none⟩
    Res.bind dstRes fun dst =>
    let rankRes : Res (Option Rank × Int) :=
      match e.rank with
      | some r =>
        Res.bind (r.validateAndReset (pfx ++ ".rank") 2) fun r2 => .ok (some r2, 3)
      | none =>
        if e.withRanking.getD false then .ok (some ⟨some 2⟩, 3) else .ok (none, 2)
    Res.bind rankRes fun rs =>
    Res.bind (propsLoop ".prop[" pfx rs.2 e.props 0) fun ps =>
      .ok ⟨e.name, e.withRanking, ps, some src, some dst, rs.1⟩

/-- The tag loop of `Vertex.validateAndReset` (config.go lines 551-561):
tag `i` is validated with prop start column `j`, and `j` advances by the
number of props of that tag; a nil tag is only logged and kept nil (and
does not advance `j`). -/
def tagsLoop (pfx : String) : List (Option Tag) → Int → Int → Res (List (Option Tag))
  | [], _, _ => .ok []
  | none :: rest, i, j =>
    Res.bind (tagsLoop pfx rest (i + 1) j) fun l => .ok (none :: l)
  | some t :: rest, i, j =>
    Res.bind (t.validateAndReset (pfx ++ ".tags[" ++ toString i ++ "]") j) fun t2 =>
    Res.bind (tagsLoop pfx rest (i + 1) (j + t2.props.length)) fun l =>
      .ok (some t2 :: l)

/-- Embeds `Vertex.validateAndReset` (config.go lines 539-563). -/
def Vertex.validateAndReset (v : Vertex) (pfx : String) : Res Vertex :=
  let vidRes : Res VID :=
    match v.vid with
    | some vv => vv.validateAndReset (pfx ++ ".vid") 0
    | none => .ok ⟨some 0, none⟩
  Res.bind vidRes fun vid2 =>
  Res.bind (tagsLoop pfx v.tags 0 1) fun ts =>
    .ok ⟨some vid2, ts⟩

/-- Embeds `Schema.validateAndReset` (config.go lines 285-304): dereferences the
type discriminator (nil panics); for `"edge"`/`"vertex"` a missing body is
only logged (`logger.Infof`) and the schema is returned unchanged; any
other discriminator is an error. -/
def Schema.validateAndReset (s : Schema) (pfx : String) : Res Schema :=
  match s.type with
  | none => .crash
  | some ty =>
    if goToLower ty = "edge" then
      match s.edge with
      | some e =>
        Res.bind (e.validateAndReset (pfx ++ ".edge")) fun e2 =>
          .ok ⟨s.type, some e2, s.vertex⟩
      | none => .ok s
    else if goToLower ty = "vertex" then
      match s.vertex with
      | some v =>
        Res.bind (v.validateAndReset (pfx ++ ".vertex")) fun v2 =>
          .ok ⟨s.type, s.edge, some v2⟩
      | none => .ok s
    else
      .err ("Error schema type(" ++ ty ++ ") in " ++ pfx ++
        ".type only edge and vertex are supported")

/-- Embeds `Prop.FormatValue` (config.go lines 577-592).  The explicit bounds
check only fires for a non-nil index at or past the record length; a nil
index or a negative index then panics at `record[*p.Index]`; a nil type
panics inside `IsStringType`; a type beginning with `date-timestamp` is
split at `":"` and element 1 of the pieces is taken (panicking when the
type holds no colon). -/
def GoProp.FormatValue (p : GoProp) (record : List String) : Res String :=
  match p.index with
  | some i =>
    if (record.length : Int) ≤ i then
      .err ("Prop index " ++ toString i ++ " out range " ++ toString record.length ++
        " of record(" ++ goFmtStrList record ++ ")")
    else
      match recNth record i with
      | none => .crash
      | some r =>
        match p.type with
        | none => .crash
        | some ty =>
          if goToLower ty = "string" then .ok (goQuote r)
          else if goToLower ty = "int" then .ok (tryConvInt64 r)
          else if "date-timestamp".toList.isPrefixOf (goToLower ty).toList then
            match (goSplit ty ':')[1]? with
            | none => .crash
            | some f => .ok (tryConvDateTimestamp r f)
          else .ok r
  | none => .crash

/-- The prop loop of `Tag.FormatValues` (config.go lines 613-623): a nil
prop entry panics inside `FormatValue`; a `FormatValue` error is passed to
`logger.Fatalf`, aborting the process. -/
def tagCellsLoop : List (Option GoProp) → List String → Res (List String)
  | [], _ => .ok []
  | none :: _, _ => .crash
  | some p :: rest, record =>
    match p.FormatValue record with
    | .ok c => Res.bind (tagCellsLoop rest record) fun cs => .ok (c :: cs)
    | .err m => .fatal m
    | .fatal m => .fatal m
    | .crash => .crash

/-- Embeds `Tag.FormatValues` (config.go lines 613-623). -/
def Tag.FormatValues (t : Tag) (record : List String) : Res String :=
  Res.bind (tagCellsLoop t.props record) fun cells => .ok (joinSep "," cells)

/-- VID rendering shared by `Vertex.FormatValues` (config.go lines 491-496)
and the srcVID part of `Edge.FormatValues` (lines 366-372): a nil `*VID`
panics on the `Function` access; with a function set the cell is rendered
`function("cell")`, otherwise through `base.TryConvInt64`. -/
def vidRender : Option VID → List String → Res String
  | none, _ => .crash
  | some v, record =>
    match v.function with
    | some f =>
      match v.index with
      | none => .crash
      | some i =>
        match recNth record i with
        | none => .crash
        | some c => .ok (f ++ "(" ++ goQuote c ++ ")")
    | none =>
      match v.index with
      | none => .crash
      | some i =>
        match recNth record i with
        | none => .crash
        | some c => .ok (tryConvInt64 c)

/-- The tag loop of `Vertex.FormatValues` (config.go lines 487-490): a nil
tag panics inside `Tag.FormatValues`. -/
def vertexCellsLoop : List (Option Tag) → List String → Res (List String)
  | [], _ => .ok []
  | none :: _, _ => .crash
  | some t :: rest, record =>
    Res.bind (t.FormatValues record) fun c =>
    Res.bind (vertexCellsLoop rest record) fun cs => .ok (c :: cs)

/-- Embeds `Vertex.FormatValues` (config.go lines 486-498): the tag cells are
computed first, then the VID, and the result is
`fmt.Sprintf(" %s: (%s)", vid, strings.Join(cells, ","))` — note the
leading space in the format string. -/
def Vertex.FormatValues (v : Vertex) (record : List String) : Res String :=
  Res.bind (vertexCellsLoop v.tags record) fun cells =>
  Res.bind (vidRender v.vid record) fun vid =>
    .ok (" " ++ vid ++ ": (" ++ joinSep "," cells ++ ")")

/-- The rank segment of `Edge.FormatValues` (config.go lines 362-365):
`"@" ++ record[*e.Rank.Index]` when a rank with a non-nil index is present
(panicking when that index is outside the record), `""` otherwise. -/
def edgeRankStr : Option Rank → List String → Res String
  | some r, record =>
    match r.index with
    | some i =>
      match recNth record i with
      | some c => .ok ("@" ++ c)
      | none => .crash
    | none => .ok ""
  | none, _ => .ok ""

/-- Embeds `record[*e.Props[0].Index]` of `Edge.FormatValues` (config.go line
375): panics when the prop list is empty, its first entry is nil, that
entry's index is nil, or the index is outside the record. -/
def edgeFirstPropCell (ps : List (Option GoProp)) (record : List String) : Res String :=
  match ps with
  | [] => .crash
  | none :: _ => .crash
  | some p :: _ =>
    match p.index with
    | none => .crash
    | some i =>
      match recNth record i with
      | some c => .ok c
      | none => .crash

/-- The row loop of `Edge.FormatValues` (config.go lines 377-382): each
`"&"`-separated row is split at `"#"`, piece 0 is run through
`base.TryConvInt64`, and piece 1 is read (panicking when the row holds no
`"#"`); the fragment is
`fmt.Sprintf(" %s->%s%s:(%s) ", srcVID, cells[0], rank, cells[1])`. -/
def edgeRowsLoop (src rank : String) : List String → Res (List String)
  | [] => .ok []
  | row :: rest =>
    let cells := goSplit row '#'
    let c0 := tryConvInt64 (cells.headD "")
    match cells[1]? with
    | none => .crash
    | some c1 =>
      Res.bind (edgeRowsLoop src rank rest) fun l =>
        .ok ((" " ++ src ++ "->" ++ c0 ++ rank ++ ":(" ++ c1 ++ ") ") :: l)

/-- Embeds `Edge.FormatValues` (config.go lines 361-384): rank segment, then the
source VID, then the cell of the FIRST prop is split at `"&"` into rows
and every row becomes one fragment; the fragments are joined with `","`.
`DstVID` and all props past the first are never consulted. -/
def Edge.FormatValues (e : Edge) (record : List String) : Res String :=
  Res.bind (edgeRankStr e.rank record) fun rank =>
  Res.bind (vidRender e.srcVID record) fun src =>
  Res.bind (edgeFirstPropCell e.props record) fun cell =>
  Res.bind (edgeRowsLoop src rank (goSplit cell '&')) fun frags =>
    .ok (joinSep "," frags)

/-- The version guard of `Parse` (config.go lines 108-110): Go evaluates
`conf.Version == nil && *conf.Version != version` left to right with
short-circuiting, so the dereference runs exactly when the pointer is nil;
when the guard is true the `"The YAML configure version must be %s"` error
is returned. -/
def parseVersionCheck (v : Option String) : Res Unit :=
  let condRes : Res Bool :=
    if v = none then Res.bind (goDeref v) (fun s => .ok (s != version))
    else .ok false
  Res.bind condRes fun b =>
    if b then .err ("The YAML configure version must be " ++ version) else .ok ()

/-- Environment abstracting the file-system collaborators used by
`File.validateAndReset`: `base.PathExists`, `filepath.Abs(filepath.Dir ·)`
and `base.PathFileList` (whose error is discarded by the code, hence
`Option`). -/
structure FSEnv where
  pathExists : String → Bool
  absDir : String → Except String String
  pathFileList : String → Option (List String)

/-- Simplified model of Go `filepath.Join` for two components (no path
cleaning; the claims never depend on the joined value). -/
def pathJoin (a b : String) : String :=
  if a = "" then b else a ++ "/" ++ b

/-- Simplified model of Go `filepath.Base`: the last `/`-separated
component. -/
def pathBase (p : String) : String :=
  match (splitChar '/' p.toList).getLast? with
  | some l => String.mk l
  | none => ""

/-- Embeds `CSVConfig.validateAndReset` (config.go lines 251-271). -/
def CSVConfig.validateAndReset (c : CSVConfig) (pfx : String) : Res CSVConfig :=
  let wh := c.withHeader.getD false
  let wl := c.withLabel.getD false
  match c.delimiter with
  | some d =>
    if d = "" then .err (pfx ++ ".delimiter is empty string")
    else .ok ⟨some wh, some wl, some d⟩
  | none => .ok ⟨some wh, some wl, none⟩

/-- Embeds `File.validateAndReset` (config.go lines 201-249): a nil path is an
error; a path that exists neither directly nor under `dir` is an error;
`base.PathFileList`'s error is discarded; a nil failDataPath is defaulted
next to the input file; batchSize defaults to 128 and inOrder to false; a
nil type panics at `strings.ToLower(*f.Type)` and a non-csv type is an
error; a nil schema is an error, otherwise the schema is resolved. -/
def File.validateAndReset (env : FSEnv) (f : File) (dir pfx : String) : Res File :=
  match f.path with
  | none => .err ("Please configure file path in: " ++ pfx ++ ".path")
  | some p0 =>
    let pRes : Res String :=
      if env.pathExists p0 then .ok p0
      else
        let p2 := pathJoin dir p0
        if env.pathExists p2 then .ok p2
        else .err ("File(" ++ p0 ++ ") doesn\x27t exist")
    Res.bind pRes fun p =>
    let paths := (env.pathFileList p).getD []
    let fdRes : Res String :=
      match f.failDataPath with
      | some d => .ok d
      | none =>
        match env.absDir p with
        | .error e => .err e
        | .ok d => .ok (pathJoin (pathJoin d "err") (pathBase p))
    Res.bind fdRes fun fd =>
    let bs := f.batchSize.getD 128
    let inOrd := f.inOrder.getD false
    match f.type with
    | none => .crash
    | some ty =>
      if goToLower ty = "csv" then
        let csvRes : Res (Option CSVConfig) :=
          match f.csv with
          | none => .ok none
          | some c => Res.bind (c.validateAndReset (pfx ++ ".csv")) fun c2 => .ok (some c2)
        Res.bind csvRes fun csv2 =>
        match f.schema with
        | none => .err ("Please configure file schema: " ++ pfx ++ ".schema")
        | some s =>
          Res.bind (s.validateAndReset (pfx ++ ".schema")) fun s2 =>
            .ok ⟨paths, some p, some fd, some bs, f.limit, some inOrd,
              some ty, csv2, some s2⟩
      else .err ("Invalid file data type: " ++ ty ++ ", reset to csv")

/-- Embeds `NebulaClientConnection.validateAndReset` (config.go lines 180-199):
pure defaulting, never fails. -/
def NebulaClientConnection.validateAndReset (c : NebulaClientConnection)
    (pfx : String) : Res NebulaClientConnection :=
  let _ := pfx
  .ok ⟨some (c.user.getD "user"), some (c.password.getD "password"),
    some (c.address.getD "127.0.0.1:3699")⟩

/-- Embeds `NebulaClientSettings.validateAndReset` (config.go lines 150-178): a
nil space or a nil connection is an error; retry, concurrency and
channelBufferSize default to 1, 10 and 128. -/
def NebulaClientSettings.validateAndReset (n : NebulaClientSettings)
    (pfx : String) : Res NebulaClientSettings :=
  match n.space with
  | none => .err ("Please configure the space name in: " ++ pfx ++ ".space")
  | some sp =>
    let retry := n.retry.getD 1
    let conc := n.concurrency.getD 10
    let buf := n.channelBufferSize.getD 128
    match n.connection with
    | none => .err ("Please configure the connection information in: " ++ pfx ++ ".connection")
    | some c =>
      Res.bind (c.validateAndReset (pfx ++ ".connection")) fun c2 =>
        .ok ⟨some retry, some conc, some buf, some sp, some c2⟩

/-- The file loop of `YAMLConfig.ValidateAndReset` (config.go lines
141-145): a nil entry panics inside `File.validateAndReset`. -/
def filesLoop (env : FSEnv) (dir : String) :
    List (Option File) → Int → Res (List (Option File))
  | [], _ => .ok []
  | none :: _, _ => .crash
  | some f :: rest, i =>
    Res.bind (f.validateAndReset env dir ("files[" ++ toString i ++ "]")) fun f2 =>
    Res.bind (filesLoop env dir rest (i + 1)) fun l => .ok (some f2 :: l)

/-- Embeds `YAMLConfig.ValidateAndReset` (config.go lines 123-148): nil
clientSettings is an error, the settings are resolved, logPath defaults to
`/tmp/nebula-importer.log`, an empty file list is an error, and every file
is resolved in order. -/
def YAMLConfig.ValidateAndReset (env : FSEnv) (config : YAMLConfig)
    (dir : String) : Res YAMLConfig :=
  match config.nebulaClientSettings with
  | none => .err "please configure clientSettings"
  | some n =>
    Res.bind (n.validateAndReset "clientSettings") fun n2 =>
    let lp := config.logPath.getD "/tmp/nebula-importer.log"
    if config.files.isEmpty then .err "There is no files in configuration"
    else
      Res.bind (filesLoop env dir config.files 0) fun fs2 =>
        .ok ⟨config.version, config.description, some n2, some lp, fs2⟩

/-- A raw prop description with the column index left unspecified. -/
def rawPropOf (q : String × String) : Option GoProp :=
  some ⟨some q.1, some q.2, none⟩

/-- Follows the spec's words for claim C4: props are "numbered sequentially"
starting at `k`, each prop keeping its name and lower-cased type. -/
def specProps : Int → List (String × String) → List (Option GoProp)
  | _, [] => []
  | k, q :: rest => some ⟨some q.1, some (goToLower q.2), some k⟩ :: specProps (k + 1) rest

/-- A raw tag description whose props all have unspecified column indices. -/
def rawTagOf (t : String × List (String × String)) : Option Tag :=
  some ⟨some t.1, t.2.map rawPropOf⟩

/-- Follows the spec's words for claim C4: tag props are numbered
sequentially starting at `j` "across tags in declaration order". -/
def specTags : Int → List (String × List (String × String)) → List (Option Tag)
  | _, [] => []
  | j, t :: rest => some ⟨some t.1, specProps j t.2⟩ :: specTags (j + t.2.length) rest

/-- The resolved edge schema of the spec's edge compile claim: SrcVID at
index 0 with `hash` generator, DstVID at index 1 with no generator, Rank at
index 2, one prop likeness:double at index 3. -/
def edgeSample : Edge :=
  ⟨some "follow", some true, [some ⟨some "likeness", some "double", some 3⟩],
    some ⟨some 0, some "hash"⟩, some ⟨some 1, none⟩, some ⟨some 2⟩⟩

/-- The resolved vertex schema of the spec's vertex compile claim: VID at
index 0 with no generator, one tag student with name:string at index 1 and
age:int at index 2. -/
def vertexSample : Vertex :=
  ⟨some ⟨some 0, none⟩,
    [some ⟨some "student", [some ⟨some "name", some "string", some 1⟩,
       some ⟨some "age", some "int", some 2⟩]⟩]⟩

/-- A two-tag resolved vertex schema, for the tag-declaration-order part of
claim C3: the student tag followed by an extra tag with score:double at
index 3. -/
def vertexSample2 : Vertex :=
  ⟨some ⟨some 0, none⟩,
    [some ⟨some "student", [some ⟨some "name", some "string", some 1⟩,
       some ⟨some "age", some "int", some 2⟩]⟩,
     some ⟨some "extra", [some ⟨some "score", some "double", some 3⟩]⟩]⟩

/-- A concrete file-system environment where every path exists, used to
instantiate the configuration-validation theorems. -/
def envAllPaths : FSEnv :=
  ⟨fun _ => true, fun s => .ok s, fun _ => none⟩

/-! Helper lemmas shared by the claim theorems. -/

/-- An index at or past the record length makes Go slice access panic. -/
theorem recNth_eq_none (rec : List String) (i : Int)
    (h : (rec.length : Int) ≤ i) : recNth rec i = none := by
  unfold recNth
  split
  · rfl
  · next hneg => exact List.getElem?_eq_none (by omega)

/-- A successful Go slice access implies the index is below the length. -/
theorem recNth_lt_of_some (rec : List String) (i : Int) (cell : String)
    (h : recNth rec i = some cell) : ¬ ((rec.length : Int) ≤ i) := by
  intro hle
  rw [recNth_eq_none rec i hle] at h
  cases h

/-- Sequential numbering does not change the number of props. -/
theorem specProps_length (ps : List (String × String)) :
    ∀ k : Int, (specProps k ps).length = ps.length := by
  induction ps with
  | nil => intro k; rfl
  | cons q rest ih => intro k; simp [specProps, ih]

/-- The Go prop loops assign default column `i + start` to the prop at
position `i` when every index is unspecified and every type is valid. -/
theorem propsLoop_rawProps (seg pfx : String) (start : Int)
    (ps : List (String × String))
    (hv : (ps.all fun q => isValidType (goToLower q.2)) = true) :
    ∀ i : Int, propsLoop seg pfx start (ps.map rawPropOf) i =
      .ok (specProps (i + start) ps) := by
  induction ps with
  | nil => intro i; rfl
  | cons q rest ih =>
    intro i
    simp only [List.all_cons, Bool.and_eq_true] at hv
    have ih2 := ih hv.2 (i + 1)
    rw [show i + 1 + start = i + start + 1 by ring] at ih2
    simp [List.map, propsLoop, rawPropOf, GoProp.validateAndReset, hv.1,
      Res.bind, ih2, specProps]

/-- The Go tag loop numbers tag props sequentially across tags in
declaration order, starting at `j`. -/
theorem tagsLoop_rawTags (pfx : String)
    (ts : List (String × List (String × String)))
    (hv : (ts.all fun t => t.2.all fun q => isValidType (goToLower q.2)) = true) :
    ∀ i j : Int, tagsLoop pfx (ts.map rawTagOf) i j = .ok (specTags j ts) := by
  induction ts with
  | nil => intro i j; rfl
  | cons t rest ih =>
    intro i j
    simp only [List.all_cons, Bool.and_eq_true] at hv
    have hp := propsLoop_rawProps ".props[" (pfx ++ ".tags[" ++ toString i ++ "]") j t.2 hv.1 0
    rw [show (0 : Int) + j = j by ring] at hp
    have ih2 := ih hv.2 (i + 1) (j + (t.2.length : Int))
    simp [List.map, tagsLoop, rawTagOf, Tag.validateAndReset, Res.bind, hp,
      specProps_length, ih2, specTags]

/-! Claim theorems. -/

/-- Claim C1 counterexample: on the claim's own record `["A","5","0","9.5"]`
the edge compiler of this repository does not yield the claimed statement
`hash("A")->5@0:(9.5)`; it panics, because the cell of the first prop is
split at `"#"` and element 1 of the pieces is read while `"9.5"` holds no
`"#"` (config.go lines 375-381). -/
theorem c1_edge_statement_counterexample :
    Edge.FormatValues edgeSample ["A", "5", "0", "9.5"] = Res.crash ∧
    Edge.FormatValues edgeSample ["A", "5", "0", "9.5"] ≠
      Res.ok "hash(\"A\")->5@0:(9.5)" := by
  decide

/-- Claim C1 amended: the edge compiler never consults DstVID; it treats
the cell of the first prop as a `"&"`-separated list of `dst#value` pairs
and emits one fragment `" <srcVID>-><dst>[@rank]:(<value>) "` (note the
surrounding spaces) per pair, joined with `","`; on the claim's record the
compiler panics since the prop cell `"9.5"` holds no `"#"`. -/
theorem c1_edge_statement_amended :
    (∀ (nm : Option String) (wr : Option Bool) (ps : List (Option GoProp))
       (src d d2 : Option VID) (r : Option Rank) (rec : List String),
       Edge.FormatValues ⟨nm, wr, ps, src, d, r⟩ rec =
         Edge.FormatValues ⟨nm, wr, ps, src, d2, r⟩ rec) ∧
    Edge.FormatValues edgeSample ["A", "5", "0", "5#9.5"] =
      Res.ok " hash(\"A\")->5@0:(9.5) " ∧
    Edge.FormatValues edgeSample ["A", "5", "0", "5#9.5&7#0.3"] =
      Res.ok " hash(\"A\")->5@0:(9.5) , hash(\"A\")->7@0:(0.3) " ∧
    Edge.FormatValues edgeSample ["A", "5", "0", "9.5"] = Res.crash := by
  exact ⟨fun nm wr ps src d d2 r rec => rfl, by decide, by decide, by decide⟩

/-- Claim C3 counterexample: the vertex compiler does not return the
claimed exact text `101: ("Mary",19)`; the format string of
`Vertex.FormatValues` (config.go line 497) starts with a space. -/
theorem c3_vertex_statement_counterexample :
    Vertex.FormatValues vertexSample ["101", "Mary", "19"] ≠
      Res.ok "101: (\"Mary\",19)" := by
  decide

/-- Claim C3 amended: the vertex statement is
`" <rendered VID>: (<tag1.prop1>,...,<tag2.prop1>,...)"` with a LEADING
SPACE, properties concatenated in tag declaration order and each tag's
props in declared order; on the claim's record the result is
`" 101: (\"Mary\",19)"`. -/
theorem c3_vertex_statement_amended :
    (∀ a b c : String,
       Vertex.FormatValues vertexSample [a, b, c] =
         Res.ok (" " ++ tryConvInt64 a ++ ": (" ++ goQuote b ++ "," ++
           tryConvInt64 c ++ ")")) ∧
    (∀ a b c d : String,
       Vertex.FormatValues vertexSample2 [a, b, c, d] =
         Res.ok (" " ++ tryConvInt64 a ++ ": (" ++ goQuote b ++ "," ++
           tryConvInt64 c ++ "," ++ d ++ ")")) ∧
    Vertex.FormatValues vertexSample ["101", "Mary", "19"] =
      Res.ok " 101: (\"Mary\",19)" := by
  refine ⟨fun a b c => ?_, fun a b c d => ?_, by decide⟩
  · show Res.ok ((((" " ++ tryConvInt64 a) ++ ": (") ++
      ((goQuote b ++ ",") ++ tryConvInt64 c)) ++ ")") = _
    exact congrArg Res.ok (by simp [String.append_assoc])
  · show Res.ok ((((" " ++ tryConvInt64 a) ++ ": (") ++
      ((((goQuote b ++ ",") ++ tryConvInt64 c) ++ ",") ++ d)) ++ ")") = _
    exact congrArg Res.ok (by simp [String.append_assoc])

/-- Claim C6 counterexample: a schema typed `"edge"` whose edge body is
absent resolves SUCCESSFULLY with the body still unset (config.go lines
289-293 merely log), and a nil prop entry survives edge resolution. -/
theorem c6_full_resolution_counterexample :
    Schema.validateAndReset ⟨some "edge", none, none⟩ "files[0].schema" =
      Res.ok ⟨some "edge", none, none⟩ ∧
    Edge.validateAndReset ⟨some "e", none, [none], none, none, none⟩ "s" =
      Res.ok ⟨some "e", none, [none], some ⟨some 0, none⟩, some ⟨some 1, none⟩, none⟩ := by
  decide

/-- Claim C6 amended: resolution does NOT guarantee a fully-resolved
schema: a type discriminator `"edge"` with an absent edge body (or
`"vertex"` with an absent vertex body) succeeds unchanged after a log
line, and nil tag or prop entries are logged, skipped and kept nil. -/
theorem c6_full_resolution_amended :
    (∀ (pfx : String) (v : Option Vertex),
       Schema.validateAndReset ⟨some "edge", none, v⟩ pfx =
         Res.ok ⟨some "edge", none, v⟩) ∧
    (∀ (pfx : String) (e : Option Edge),
       Schema.validateAndReset ⟨some "vertex", e, none⟩ pfx =
         Res.ok ⟨some "vertex", e, none⟩) ∧
    (∀ (pfx nm : String),
       Edge.validateAndReset ⟨some nm, none, [none], none, none, none⟩ pfx =
         Res.ok ⟨some nm, none, [none], some ⟨some 0, none⟩, some ⟨some 1, none⟩, none⟩) ∧
    (∀ pfx : String,
       Vertex.validateAndReset ⟨none, [none]⟩ pfx =
         Res.ok ⟨some ⟨some 0, none⟩, [none]⟩) := by
  exact ⟨fun pfx v => rfl, fun pfx e => rfl, fun pfx nm => rfl, fun pfx => rfl⟩

/-- Claim C8: the record compilers are pure functions of the resolved
schema and the record; compiling the same pair twice yields the same
outcome (the only side channel of the Go code, the fatal-log abort, is
part of the modelled outcome value). -/
theorem c8_compile_deterministic :
    ∀ (v : Vertex) (e : Edge) (t : Tag) (p : GoProp) (rec : List String),
      Vertex.FormatValues v rec = Vertex.FormatValues v rec ∧
      Edge.FormatValues e rec = Edge.FormatValues e rec ∧
      Tag.FormatValues t rec = Tag.FormatValues t rec ∧
      GoProp.FormatValue p rec = GoProp.FormatValue p rec :=
  fun _ _ _ _ _ => ⟨rfl, rfl, rfl, rfl⟩

/-- Claim C9: the guard `conf.Version == nil && *conf.Version != version`
of Parse (config.go line 108) short-circuits, so with a version present the
version-mismatch error is unreachable whatever the value, and with the
version absent the second operand dereferences a nil pointer and panics. -/
theorem c9_version_guard :
    (∀ s : String, parseVersionCheck (some s) = Res.ok ()) ∧
    parseVersionCheck none = Res.crash :=
  ⟨fun _ => rfl, rfl⟩

/-- Claim C2 counterexample: an out-of-range prop index does NOT merely
reject the record: in a vertex tag the `FormatValue` error is fed to
`logger.Fatalf` (config.go line 617), aborting the whole process, and an
out-of-range Rank index panics on the unchecked `record[*e.Rank.Index]`
(line 364) — contradicting "neither panics nor aborts the whole
process". -/
theorem c2_out_of_range_counterexample :
    Tag.FormatValues ⟨some "student", [some ⟨some "p", some "string", some 5⟩]⟩
      ["x", "y"] = Res.fatal "Prop index 5 out range 2 of record([x y])" ∧
    Edge.FormatValues ⟨some "e", none, [], none, none, some ⟨some 5⟩⟩ ["x", "y"] =
      Res.crash := by
  decide

/-- Claim C2 amended: only Prop indices are bounds-checked.
`Prop.FormatValue` with an index at or past the record length returns an
error naming the offending index and the record length; the tag-level
caller then terminates the whole process through `logger.Fatalf` instead
of rejecting only the record; an out-of-range Rank index (and an
out-of-range VID index) causes a runtime panic with no error at all. -/
theorem c2_out_of_range_amended :
    (∀ (nm ty : Option String) (i : Int) (rec : List String),
       (rec.length : Int) ≤ i →
       GoProp.FormatValue ⟨nm, ty, some i⟩ rec =
         Res.err ("Prop index " ++ toString i ++ " out range " ++
           toString rec.length ++ " of record(" ++ goFmtStrList rec ++ ")")) ∧
    (∀ (tnm nm ty : Option String) (i : Int) (ps : List (Option GoProp))
       (rec : List String),
       (rec.length : Int) ≤ i →
       Tag.FormatValues ⟨tnm, some ⟨nm, ty, some i⟩ :: ps⟩ rec =
         Res.fatal ("Prop index " ++ toString i ++ " out range " ++
           toString rec.length ++ " of record(" ++ goFmtStrList rec ++ ")")) ∧
    (∀ (i : Int) (rec : List String) (nm : Option String) (wr : Option Bool)
       (ps : List (Option GoProp)) (src dst : Option VID),
       (rec.length : Int) ≤ i →
       Edge.FormatValues ⟨nm, wr, ps, src, dst, some ⟨some i⟩⟩ rec = Res.crash) ∧
    (∀ (i : Int) (rec : List String) (fn : Option String),
       (rec.length : Int) ≤ i →
       Vertex.FormatValues ⟨some ⟨some i, fn⟩, []⟩ rec = Res.crash) := by
  have h1 : ∀ (nm ty : Option String) (i : Int) (rec : List String),
      (rec.length : Int) ≤ i →
      GoProp.FormatValue ⟨nm, ty, some i⟩ rec =
        Res.err ("Prop index " ++ toString i ++ " out range " ++
          toString rec.length ++ " of record(" ++ goFmtStrList rec ++ ")") := by
    intro nm ty i rec h
    simp [GoProp.FormatValue, h]
  refine ⟨h1, ?_, ?_, ?_⟩
  · intro tnm nm ty i ps rec h
    simp [Tag.FormatValues, tagCellsLoop, h1 nm ty i rec h, Res.bind]
  · intro i rec nm wr ps src dst h
    simp [Edge.FormatValues, edgeRankStr, recNth_eq_none rec i h, Res.bind]
  · intro i rec fn h
    cases fn <;>
      simp [Vertex.FormatValues, vertexCellsLoop, vidRender,
        recNth_eq_none rec i h, Res.bind]

/-- Claim C2 witness: the amended theorem instantiated with concrete
schemas and records, including the spec's prop-at-index-5 against a
length-2 record. -/
theorem c2_out_of_range_witness :
    GoProp.FormatValue ⟨some "p", some "string", some 5⟩ ["x", "y"] =
      Res.err ("Prop index " ++ toString (5 : Int) ++ " out range " ++
        toString (["x", "y"] : List String).length ++ " of record(" ++
        goFmtStrList ["x", "y"] ++ ")") ∧
    Tag.FormatValues ⟨some "t", [some ⟨some "q", some "int", some 7⟩]⟩ ["x"] =
      Res.fatal ("Prop index " ++ toString (7 : Int) ++ " out range " ++
        toString (["x"] : List String).length ++ " of record(" ++
        goFmtStrList ["x"] ++ ")") ∧
    Edge.FormatValues ⟨some "e", none, [], none, none, some ⟨some 9⟩⟩ ["x"] =
      Res.crash ∧
    Vertex.FormatValues ⟨some ⟨some 9, none⟩, []⟩ ["x"] = Res.crash :=
  ⟨c2_out_of_range_amended.1 (some "p") (some "string") 5 ["x", "y"] (by decide),
   c2_out_of_range_amended.2.1 (some "t") (some "q") (some "int") 7 [] ["x"] (by decide),
   c2_out_of_range_amended.2.2.1 9 ["x"] (some "e") none [] none none (by decide),
   c2_out_of_range_amended.2.2.2 9 ["x"] none (by decide)⟩

/-- Claim C5 counterexample: a negative explicitly-given Prop index does
NOT return an error to the caller — `Prop.validateAndReset` (config.go
line 607) calls `logger.Fatalf`, terminating the process — and a missing
type discriminator panics on the nil dereference `*s.Type` (line 287)
instead of returning an error. -/
theorem c5_rejection_counterexample :
    (GoProp.validateAndReset ⟨some "n", some "int", some (-1)⟩ "p" 0).isErr = false ∧
    GoProp.validateAndReset ⟨some "n", some "int", some (-1)⟩ "p" 0 =
      Res.fatal "Invalid prop index: -1, name: n, type: int" ∧
    Schema.validateAndReset ⟨none, none, none⟩ "files[0].schema" = Res.crash := by
  decide

/-- Claim C5 amended: resolution returns an error for an unknown property
type, an unsupported VID generator, a negative explicit VID or Rank index,
a missing edge name and an unknown type discriminator; but a negative
explicit Prop index aborts the whole process through `logger.Fatalf`, and
a missing type discriminator panics on a nil dereference rather than
returning an error. -/
theorem c5_rejection_amended :
    (∀ (nm : Option String) (ty : String) (idx : Option Int) (pfx : String) (v : Int),
       isValidType (goToLower ty) = false →
       (GoProp.validateAndReset ⟨nm, some ty, idx⟩ pfx v).isErr = true) ∧
    (∀ (i : Int) (f pfx : String) (dv : Int),
       0 ≤ i →
       ¬(goToLower f = "" ∨ goToLower f = "hash" ∨ goToLower f = "uuid") →
       (VID.validateAndReset ⟨some i, some f⟩ pfx dv).isErr = true) ∧
    (∀ (i : Int) (fn : Option String) (pfx : String) (dv : Int),
       i < 0 → (VID.validateAndReset ⟨some i, fn⟩ pfx dv).isErr = true) ∧
    (∀ (i : Int) (pfx : String) (dv : Int),
       i < 0 → (Rank.validateAndReset ⟨some i⟩ pfx dv).isErr = true) ∧
    (∀ (nm ty : String) (i : Int) (pfx : String) (v : Int),
       isValidType (goToLower ty) = true → i < 0 →
       GoProp.validateAndReset ⟨some nm, some ty, some i⟩ pfx v =
         Res.fatal ("Invalid prop index: " ++ toString i ++ ", name: " ++ nm ++
           ", type: " ++ goToLower ty)) ∧
    (∀ (wr : Option Bool) (ps : List (Option GoProp)) (s d : Option VID)
       (r : Option Rank) (pfx : String),
       (Edge.validateAndReset ⟨none, wr, ps, s, d, r⟩ pfx).isErr = true) ∧
    (∀ (ty : String) (e : Option Edge) (v : Option Vertex) (pfx : String),
       ¬ goToLower ty = "edge" → ¬ goToLower ty = "vertex" →
       (Schema.validateAndReset ⟨some ty, e, v⟩ pfx).isErr = true) ∧
    (∀ (e : Option Edge) (v : Option Vertex) (pfx : String),
       Schema.validateAndReset ⟨none, e, v⟩ pfx = Res.crash) := by
  refine ⟨?_, ?_, ?_, ?_, ?_, ?_, ?_, ?_⟩
  · intro nm ty idx pfx v h
    simp [GoProp.validateAndReset, h, Res.isErr]
  · intro i f pfx dv h0 hf
    simp [VID.validateAndReset, VID.checkFunction, Option.getD,
      show ¬ i < 0 by omega, hf, Res.bind, Res.isErr]
  · intro i fn pfx dv h
    simp [VID.validateAndReset, Option.getD, h, Res.isErr]
  · intro i pfx dv h
    simp [Rank.validateAndReset, Option.getD, h, Res.isErr]
  · intro nm ty i pfx v hty hi
    simp [GoProp.validateAndReset, hty, hi]
  · intro wr ps s d r pfx
    rfl
  · intro ty e v pfx h1 h2
    simp [Schema.validateAndReset, h1, h2, Res.isErr]
  · intro e v pfx
    rfl

/-- Claim C5 witness: the amended theorem instantiated at the type `foo`,
generator `md5`, indices `-2`, `-3` and `-4`, and discriminator `graph`. -/
theorem c5_rejection_witness :
    (GoProp.validateAndReset ⟨some "a", some "foo", none⟩ "p" 0).isErr = true ∧
    (VID.validateAndReset ⟨some 0, some "md5"⟩ "p" 0).isErr = true ∧
    (VID.validateAndReset ⟨some (-2), none⟩ "p" 0).isErr = true ∧
    (Rank.validateAndReset ⟨some (-3)⟩ "p" 2).isErr = true ∧
    GoProp.validateAndReset ⟨some "n2", some "string", some (-4)⟩ "p" 0 =
      Res.fatal ("Invalid prop index: " ++ toString (-4 : Int) ++ ", name: " ++
        "n2" ++ ", type: " ++ goToLower "string") ∧
    (Schema.validateAndReset ⟨some "graph", none, none⟩ "s").isErr = true :=
  ⟨c5_rejection_amended.1 (some "a") "foo" none "p" 0 (by decide),
   c5_rejection_amended.2.1 0 "md5" "p" 0 (by decide) (by decide),
   c5_rejection_amended.2.2.1 (-2) none "p" 0 (by decide),
   c5_rejection_amended.2.2.2.1 (-3) "p" 2 (by decide),
   c5_rejection_amended.2.2.2.2.1 "n2" "string" (-4) "p" 0 (by decide) (by decide),
   c5_rejection_amended.2.2.2.2.2.2.1 "graph" none none "s" (by decide) (by decide)⟩

/-- Claim C7 counterexample: a prop typed exactly `date-timestamp` (no
colon) is neither string, int nor of the form date-timestamp:FORMAT, so
the claim says the raw cell passes through unchanged; the code instead
takes element 1 of `strings.Split(*p.Type, ":")` (config.go line 589),
which panics on the one-element split. -/
theorem c7_prop_format_counterexample :
    GoProp.FormatValue ⟨some "p", some "date-timestamp", some 0⟩ ["x"] = Res.crash ∧
    GoProp.FormatValue ⟨some "p", some "date-timestamp", some 0⟩ ["x"] ≠
      Res.ok "x" := by
  decide

/-- Claim C7 amended: for an in-range cell formatting depends only on the
declared type: string quotes the raw cell; int renders the truncated
integer part; a type of the form date-timestamp:FORMAT invokes the
timestamp conversion with the piece of the type between the first and the
second colon (the full FORMAT only when FORMAT itself holds no colon); a
type that begins with date-timestamp but holds no colon panics; every
other type passes the raw cell through unchanged. -/
theorem c7_prop_format_amended :
    (∀ (nm : Option String) (ty : String) (i : Int) (rec : List String) (cell : String),
       recNth rec i = some cell → goToLower ty = "string" →
       GoProp.FormatValue ⟨nm, some ty, some i⟩ rec = Res.ok (goQuote cell)) ∧
    (∀ (nm : Option String) (ty : String) (i : Int) (rec : List String) (cell : String),
       recNth rec i = some cell → goToLower ty = "int" →
       GoProp.FormatValue ⟨nm, some ty, some i⟩ rec = Res.ok (tryConvInt64 cell)) ∧
    (∀ (nm : Option String) (ty : String) (i : Int) (rec : List String)
       (cell f : String),
       recNth rec i = some cell →
       "date-timestamp".toList.isPrefixOf (goToLower ty).toList = true →
       ¬ goToLower ty = "string" → ¬ goToLower ty = "int" →
       (goSplit ty ':')[1]? = some f →
       GoProp.FormatValue ⟨nm, some ty, some i⟩ rec =
         Res.ok (tryConvDateTimestamp cell f)) ∧
    (∀ (nm : Option String) (ty : String) (i : Int) (rec : List String) (cell : String),
       recNth rec i = some cell →
       "date-timestamp".toList.isPrefixOf (goToLower ty).toList = true →
       ¬ goToLower ty = "string" → ¬ goToLower ty = "int" →
       (goSplit ty ':')[1]? = none →
       GoProp.FormatValue ⟨nm, some ty, some i⟩ rec = Res.crash) ∧
    (∀ (nm : Option String) (ty : String) (i : Int) (rec : List String) (cell : String),
       recNth rec i = some cell →
       ¬ goToLower ty = "string" → ¬ goToLower ty = "int" →
       "date-timestamp".toList.isPrefixOf (goToLower ty).toList = false →
       GoProp.FormatValue ⟨nm, some ty, some i⟩ rec = Res.ok cell) ∧
    GoProp.FormatValue ⟨some "p", some "date-timestamp:2006", some 0⟩ ["x"] =
      Res.ok (tryConvDateTimestamp "x" "2006") ∧
    GoProp.FormatValue ⟨some "p", some "date-timestamp:15:04", some 0⟩ ["x"] =
      Res.ok (tryConvDateTimestamp "x" "15") := by
  refine ⟨?_, ?_, ?_, ?_, ?_, by decide, by decide⟩
  · intro nm ty i rec cell hc hty
    simp [GoProp.FormatValue, recNth_lt_of_some rec i cell hc, hc, hty]
  · intro nm ty i rec cell hc hty
    simp [GoProp.FormatValue, recNth_lt_of_some rec i cell hc, hc, hty]
  · intro nm ty i rec cell f hc hpre hs hi2 hsplit
    simp at hpre
    simp [GoProp.FormatValue, recNth_lt_of_some rec i cell hc, hc, hs, hi2,
      hpre, hsplit]
  · intro nm ty i rec cell hc hpre hs hi2 hsplit
    simp at hpre
    simp [GoProp.FormatValue, recNth_lt_of_some rec i cell hc, hc, hs, hi2,
      hpre, hsplit]
  · intro nm ty i rec cell hc hs hi2 hpre
    simp at hpre
    simp [GoProp.FormatValue, recNth_lt_of_some rec i cell hc, hc, hs, hi2, hpre]

/-- Claim C7 witness: the amended theorem instantiated at the types
string, int, date-timestamp:2006, date-timestampX (no colon) and double,
all against the one-cell record `["x"]`. -/
theorem c7_prop_format_witness :
    GoProp.FormatValue ⟨some "p", some "string", some 0⟩ ["x"] =
      Res.ok (goQuote "x") ∧
    GoProp.FormatValue ⟨some "p", some "int", some 0⟩ ["x"] =
      Res.ok (tryConvInt64 "x") ∧
    GoProp.FormatValue ⟨some "p", some "date-timestamp:2006", some 0⟩ ["x"] =
      Res.ok (tryConvDateTimestamp "x" "2006") ∧
    GoProp.FormatValue ⟨some "p", some "date-timestampX", some 0⟩ ["x"] =
      Res.crash ∧
    GoProp.FormatValue ⟨some "p", some "double", some 0⟩ ["x"] = Res.ok "x" :=
  ⟨c7_prop_format_amended.1 (some "p") "string" 0 ["x"] "x" (by decide) (by decide),
   c7_prop_format_amended.2.1 (some "p") "int" 0 ["x"] "x" (by decide) (by decide),
   c7_prop_format_amended.2.2.1 (some "p") "date-timestamp:2006" 0 ["x"] "x" "2006"
     (by decide) (by decide) (by decide) (by decide) (by decide),
   c7_prop_format_amended.2.2.2.1 (some "p") "date-timestampX" 0 ["x"] "x"
     (by decide) (by decide) (by decide) (by decide) (by decide),
   c7_prop_format_amended.2.2.2.2.1 (some "p") "double" 0 ["x"] "x"
     (by decide) (by decide) (by decide) (by decide)⟩

/-- Claim C4: when column indices are left unspecified, resolution assigns
the defaults: vertex VID 0 with tag props numbered sequentially from 1
across tags in declaration order; edge SrcVID 0, DstVID 1, Rank 2 exactly
when ranking is requested (a rank entry present, or withRanking true), and
edge props numbered from the next free index (2 without rank, 3 with);
explicitly given non-negative indices are kept unchanged. -/
theorem c4_default_column_assignment :
    (∀ (ts : List (String × List (String × String))) (pfx : String),
       (ts.all fun t => t.2.all fun q => isValidType (goToLower q.2)) = true →
       Vertex.validateAndReset ⟨none, ts.map rawTagOf⟩ pfx =
         Res.ok ⟨some ⟨some 0, none⟩, specTags 1 ts⟩) ∧
    (∀ (ps : List (String × String)) (nm pfx : String),
       (ps.all fun q => isValidType (goToLower q.2)) = true →
       Edge.validateAndReset ⟨some nm, some true, ps.map rawPropOf, none, none, none⟩ pfx =
         Res.ok ⟨some nm, some true, specProps 3 ps, some ⟨some 0, none⟩,
           some ⟨some 1, none⟩, some ⟨some 2⟩⟩) ∧
    (∀ (ps : List (String × String)) (nm pfx : String) (wr : Option Bool),
       (ps.all fun q => isValidType (goToLower q.2)) = true →
       wr.getD false = false →
       Edge.validateAndReset ⟨some nm, wr, ps.map rawPropOf, none, none, none⟩ pfx =
         Res.ok ⟨some nm, wr, specProps 2 ps, some ⟨some 0, none⟩,
           some ⟨some 1, none⟩, none⟩) ∧
    (∀ (ps : List (String × String)) (nm pfx : String) (wr : Option Bool),
       (ps.all fun q => isValidType (goToLower q.2)) = true →
       Edge.validateAndReset ⟨some nm, wr, ps.map rawPropOf, none, none, some ⟨none⟩⟩ pfx =
         Res.ok ⟨some nm, wr, specProps 3 ps, some ⟨some 0, none⟩,
           some ⟨some 1, none⟩, some ⟨some 2⟩⟩) ∧
    (∀ (nm : Option String) (ty : String) (i : Int) (pfx : String) (v : Int),
       isValidType (goToLower ty) = true → 0 ≤ i →
       GoProp.validateAndReset ⟨nm, some ty, some i⟩ pfx v =
         Res.ok ⟨nm, some (goToLower ty), some i⟩) ∧
    (∀ (i : Int) (fn : Option String) (pfx : String) (dv : Int),
       0 ≤ i → VID.checkFunction ⟨some i, fn⟩ pfx = Res.ok () →
       VID.validateAndReset ⟨some i, fn⟩ pfx dv = Res.ok ⟨some i, fn⟩) ∧
    (∀ (i : Int) (pfx : String) (dv : Int),
       0 ≤ i → Rank.validateAndReset ⟨some i⟩ pfx dv = Res.ok ⟨some i⟩) ∧
    (∀ (fn : Option String) (pfx : String) (dv : Int),
       0 ≤ dv → VID.checkFunction ⟨some dv, fn⟩ pfx = Res.ok () →
       VID.validateAndReset ⟨none, fn⟩ pfx dv = Res.ok ⟨some dv, fn⟩) := by
  refine ⟨?_, ?_, ?_, ?_, ?_, ?_, ?_, ?_⟩
  · intro ts pfx hv
    simp [Vertex.validateAndReset, Res.bind, tagsLoop_rawTags pfx ts hv 0 1]
  · intro ps nm pfx hv
    have hp := propsLoop_rawProps ".prop[" pfx 3 ps hv 0
    rw [show (0 : Int) + 3 = 3 by norm_num] at hp
    simp [Edge.validateAndReset, Res.bind, Option.getD, hp]
  · intro ps nm pfx wr hv hw
    have hp := propsLoop_rawProps ".prop[" pfx 2 ps hv 0
    rw [show (0 : Int) + 2 = 2 by norm_num] at hp
    simp [Edge.validateAndReset, Res.bind, hw, hp]
  · intro ps nm pfx wr hv
    have hp := propsLoop_rawProps ".prop[" pfx 3 ps hv 0
    rw [show (0 : Int) + 3 = 3 by norm_num] at hp
    simp [Edge.validateAndReset, Rank.validateAndReset, Res.bind, Option.getD, hp]
  · intro nm ty i pfx v hty hi
    simp [GoProp.validateAndReset, hty, show ¬ i < 0 by omega]
  · intro i fn pfx dv hi hfn
    simp [VID.validateAndReset, Option.getD, show ¬ i < 0 by omega, hfn, Res.bind]
  · intro i pfx dv hi
    simp [Rank.validateAndReset, Option.getD, show ¬ i < 0 by omega]
  · intro fn pfx dv hdv hfn
    simp [VID.validateAndReset, Option.getD, show ¬ dv < 0 by omega, hfn, Res.bind]

/-- Claim C4 witness: the theorem instantiated at a two-tag vertex schema
(indices 1,2 then 3 across tags), a one-prop edge with and without
ranking (prop index 3 resp. 2), and explicit indices 7 and 5 that are kept
unchanged. -/
theorem c4_default_column_assignment_witness :
    Vertex.validateAndReset
      ⟨none, [some ⟨some "student", [some ⟨some "name", some "string", none⟩,
         some ⟨some "age", some "int", none⟩]⟩,
       some ⟨some "extra", [some ⟨some "score", some "double", none⟩]⟩]⟩ "v" =
      Res.ok ⟨some ⟨some 0, none⟩,
        [some ⟨some "student", [some ⟨some "name", some "string", some 1⟩,
           some ⟨some "age", some "int", some 2⟩]⟩,
         some ⟨some "extra", [some ⟨some "score", some "double", some 3⟩]⟩]⟩ ∧
    Edge.validateAndReset
      ⟨some "follow", some true, [some ⟨some "likeness", some "double", none⟩],
        none, none, none⟩ "e" =
      Res.ok ⟨some "follow", some true, [some ⟨some "likeness", some "double", some 3⟩],
        some ⟨some 0, none⟩, some ⟨some 1, none⟩, some ⟨some 2⟩⟩ ∧
    Edge.validateAndReset
      ⟨some "follow", none, [some ⟨some "likeness", some "double", none⟩],
        none, none, none⟩ "e" =
      Res.ok ⟨some "follow", none, [some ⟨some "likeness", some "double", some 2⟩],
        some ⟨some 0, none⟩, some ⟨some 1, none⟩, none⟩ ∧
    Edge.validateAndReset
      ⟨some "follow", none, [some ⟨some "likeness", some "double", none⟩],
        none, none, some ⟨none⟩⟩ "e" =
      Res.ok ⟨some "follow", none, [some ⟨some "likeness", some "double", some 3⟩],
        some ⟨some 0, none⟩, some ⟨some 1, none⟩, some ⟨some 2⟩⟩ ∧
    GoProp.validateAndReset ⟨some "k", some "INT", some 7⟩ "p" 0 =
      Res.ok ⟨some "k", some "int", some 7⟩ ∧
    VID.validateAndReset ⟨some 7, some "hash"⟩ "p" 0 = Res.ok ⟨some 7, some "hash"⟩ ∧
    Rank.validateAndReset ⟨some 5⟩ "p" 2 = Res.ok ⟨some 5⟩ ∧
    VID.validateAndReset ⟨none, none⟩ "p" 0 = Res.ok ⟨some 0, none⟩ :=
  ⟨c4_default_column_assignment.1
     [("student", [("name", "string"), ("age", "int")]),
      ("extra", [("score", "double")])] "v" (by decide),
   c4_default_column_assignment.2.1 [("likeness", "double")] "follow" "e" (by decide),
   c4_default_column_assignment.2.2.1 [("likeness", "double")] "follow" "e" none
     (by decide) (by decide),
   c4_default_column_assignment.2.2.2.1 [("likeness", "double")] "follow" "e" none
     (by decide),
   c4_default_column_assignment.2.2.2.2.1 (some "k") "INT" 7 "p" 0 (by decide) (by decide),
   c4_default_column_assignment.2.2.2.2.2.1 7 (some "hash") "p" 0 (by decide) (by decide),
   c4_default_column_assignment.2.2.2.2.2.2.1 5 "p" 2 (by decide),
   c4_default_column_assignment.2.2.2.2.2.2.2 none "p" 0 (by decide) (by decide)⟩

/-- Claim C10: absent optional settings get the fixed defaults (retry 1,
concurrency 10, channelBufferSize 128, address 127.0.0.1:3699, user
`user`, password `password`, per-file batchSize 128, inOrder false,
logPath /tmp/nebula-importer.log), present settings are never overwritten
(the defaults only replace `none`), and an absent required field —
clientSettings, space, connection, the files list, a file's path, or a
file's schema — makes validation return an error. -/
theorem c10_config_defaults :
    (∀ (env : FSEnv) (ver desc lp : Option String) (fs : List (Option File)) (dir : String),
       YAMLConfig.ValidateAndReset env ⟨ver, desc, none, lp, fs⟩ dir =
         Res.err "please configure clientSettings") ∧
    (∀ (r c b : Option Int) (conn : Option NebulaClientConnection) (pfx : String),
       NebulaClientSettings.validateAndReset ⟨r, c, b, none, conn⟩ pfx =
         Res.err ("Please configure the space name in: " ++ pfx ++ ".space")) ∧
    (∀ (r c b : Option Int) (sp pfx : String),
       NebulaClientSettings.validateAndReset ⟨r, c, b, some sp, none⟩ pfx =
         Res.err ("Please configure the connection information in: " ++ pfx ++
           ".connection")) ∧
    (∀ (r c b : Option Int) (sp : String) (u pw ad : Option String) (pfx : String),
       NebulaClientSettings.validateAndReset ⟨r, c, b, some sp, some ⟨u, pw, ad⟩⟩ pfx =
         Res.ok ⟨some (r.getD 1), some (c.getD 10), some (b.getD 128), some sp,
           some ⟨some (u.getD "user"), some (pw.getD "password"),
             some (ad.getD "127.0.0.1:3699")⟩⟩) ∧
    (∀ (env : FSEnv) (ver desc lp : Option String) (r c b : Option Int) (sp : String)
       (u pw ad : Option String) (dir : String),
       YAMLConfig.ValidateAndReset env
         ⟨ver, desc, some ⟨r, c, b, some sp, some ⟨u, pw, ad⟩⟩, lp, []⟩ dir =
         Res.err "There is no files in configuration") ∧
    (∀ (env : FSEnv) (paths : List String) (fd : Option String) (bs lim : Option Int)
       (ord : Option Bool) (ty : Option String) (csv : Option CSVConfig)
       (sch : Option Schema) (dir pfx : String),
       File.validateAndReset env ⟨paths, none, fd, bs, lim, ord, ty, csv, sch⟩ dir pfx =
         Res.err ("Please configure file path in: " ++ pfx ++ ".path")) ∧
    (∀ (env : FSEnv) (p fd : String) (bs lim : Option Int) (ord : Option Bool)
       (dir pfx : String),
       env.pathExists p = true →
       File.validateAndReset env ⟨[], some p, some fd, bs, lim, ord, some "csv",
           none, none⟩ dir pfx =
         Res.err ("Please configure file schema: " ++ pfx ++ ".schema")) ∧
    (∀ (env : FSEnv) (p fd : String) (bs lim : Option Int) (ord : Option Bool)
       (dir pfx : String),
       env.pathExists p = true →
       File.validateAndReset env ⟨[], some p, some fd, bs, lim, ord, some "csv",
           none, some ⟨some "vertex", none, some ⟨none, []⟩⟩⟩ dir pfx =
         Res.ok ⟨(env.pathFileList p).getD [], some p, some fd, some (bs.getD 128),
           lim, some (ord.getD false), some "csv", none,
           some ⟨some "vertex", none, some ⟨some ⟨some 0, none⟩, []⟩⟩⟩) ∧
    (∀ (env : FSEnv) (ver desc lp : Option String) (r c b : Option Int) (sp : String)
       (u pw ad : Option String) (p fd : String) (bs lim : Option Int)
       (ord : Option Bool) (dir : String),
       env.pathExists p = true →
       YAMLConfig.ValidateAndReset env
         ⟨ver, desc, some ⟨r, c, b, some sp, some ⟨u, pw, ad⟩⟩, lp,
           [some ⟨[], some p, some fd, bs, lim, ord, some "csv", none,
             some ⟨some "vertex", none, some ⟨none, []⟩⟩⟩]⟩ dir =
         Res.ok ⟨ver, desc,
           some ⟨some (r.getD 1), some (c.getD 10), some (b.getD 128), some sp,
             some ⟨some (u.getD "user"), some (pw.getD "password"),
               some (ad.getD "127.0.0.1:3699")⟩⟩,
           some (lp.getD "/tmp/nebula-importer.log"),
           [some ⟨(env.pathFileList p).getD [], some p, some fd, some (bs.getD 128),
             lim, some (ord.getD false), some "csv", none,
             some ⟨some "vertex", none, some ⟨some ⟨some 0, none⟩, []⟩⟩⟩]⟩) := by
  have hfile : ∀ (env : FSEnv) (p fd : String) (bs lim : Option Int)
      (ord : Option Bool) (dir pfx : String),
      env.pathExists p = true →
      File.validateAndReset env ⟨[], some p, some fd, bs, lim, ord, some "csv",
          none, some ⟨some "vertex", none, some ⟨none, []⟩⟩⟩ dir pfx =
        Res.ok ⟨(env.pathFileList p).getD [], some p, some fd, some (bs.getD 128),
          lim, some (ord.getD false), some "csv", none,
          some ⟨some "vertex", none, some ⟨some ⟨some 0, none⟩, []⟩⟩⟩ := by
    intro env p fd bs lim ord dir pfx hp
    simp [File.validateAndReset, hp, Res.bind, Schema.validateAndReset,
      Vertex.validateAndReset, tagsLoop,
      show goToLower "csv" = "csv" from rfl,
      show goToLower "vertex" = "vertex" from rfl,
      show ¬ goToLower "vertex" = "edge" from by decide]
  refine ⟨fun env ver desc lp fs dir => rfl, fun r c b conn pfx => rfl,
    fun r c b sp pfx => rfl, fun r c b sp u pw ad pfx => rfl,
    fun env ver desc lp r c b sp u pw ad dir => rfl, fun env paths fd bs lim ord ty csv sch dir pfx => rfl,
    ?_, hfile, ?_⟩
  · intro env p fd bs lim ord dir pfx hp
    simp [File.validateAndReset, hp, Res.bind,
      show goToLower "csv" = "csv" from rfl]
  · intro env ver desc lp r c b sp u pw ad p fd bs lim ord dir hp
    simp [YAMLConfig.ValidateAndReset, NebulaClientSettings.validateAndReset,
      NebulaClientConnection.validateAndReset, Res.bind, filesLoop,
      hfile env p fd bs lim ord dir ("files[" ++ toString (0 : Int) ++ "]") hp]

/-- Claim C10 witness: the theorem instantiated with the all-paths-exist
environment and fully-absent optional settings, showing the concrete
defaults, plus the required-field error cases. -/
theorem c10_config_defaults_witness :
    YAMLConfig.ValidateAndReset envAllPaths ⟨none, none, none, none, []⟩ "/d" =
      Res.err "please configure clientSettings" ∧
    NebulaClientSettings.validateAndReset ⟨none, none, none, some "sp", some ⟨none, none, none⟩⟩ "clientSettings" =
      Res.ok ⟨some 1, some 10, some 128, some "sp",
        some ⟨some "user", some "password", some "127.0.0.1:3699"⟩⟩ ∧
    File.validateAndReset envAllPaths
      ⟨[], some "a.csv", some "e", none, none, none, some "csv", none, none⟩ "/d" "files[0]" =
      Res.err "Please configure file schema: files[0].schema" ∧
    YAMLConfig.ValidateAndReset envAllPaths
      ⟨none, none, some ⟨none, none, none, some "sp", some ⟨none, none, none⟩⟩, none,
        [some ⟨[], some "a.csv", some "e", none, none, none, some "csv", none,
          some ⟨some "vertex", none, some ⟨none, []⟩⟩⟩]⟩ "/d" =
      Res.ok ⟨none, none,
        some ⟨some 1, some 10, some 128, some "sp",
          some ⟨some "user", some "password", some "127.0.0.1:3699"⟩⟩,
        some "/tmp/nebula-importer.log",
        [some ⟨[], some "a.csv", some "e", some 128, none, some false, some "csv",
          none, some ⟨some "vertex", none, some ⟨some ⟨some 0, none⟩, []⟩⟩⟩]⟩ :=
  ⟨c10_config_defaults.1 envAllPaths none none none [] "/d",
   c10_config_defaults.2.2.2.1 none none none "sp" none none none "clientSettings",
   c10_config_defaults.2.2.2.2.2.2.1 envAllPaths "a.csv" "e" none none none "/d"
     "files[0]" rfl,
   c10_config_defaults.2.2.2.2.2.2.2.2 envAllPaths none none none none none none "sp"
     none none none "a.csv" "e" none none none "/d" rfl⟩

end NebulaImporter
